import Mathlib

/-!
Verification of the UNHCR demographics MCP server
(`unhcr_demographics.py`): a shallow embedding of its request dispatch,
argument validation, HTTP parameter construction, response reshaping and
line-oriented serving loop, together with theorems about them.

JSON/Python values are modelled by `JVal`; Python dicts are association
lists with unique keys; the outbound HTTP call is a parameter
(`HttpRequest → HttpOutcome`); an exception escaping a function is an
explicit error value.
-/

/-- A JSON value, also standing for the Python values the server
manipulates (`None`, `bool`, `int`, `str`, `list`, `dict`). -/
inductive JVal : Type where
  | null : JVal
  | bool : Bool → JVal
  | int : Int → JVal
  | str : String → JVal
  | arr : List JVal → JVal
  | obj : List (String × JVal) → JVal
deriving Repr

mutual

def JVal.beq : JVal → JVal → Bool
  | .null, .null => true
  | .bool a, .bool b => a == b
  | .int a, .int b => a == b
  | .str a, .str b => a == b
  | .arr a, .arr b => JVal.beqList a b
  | .obj a, .obj b => JVal.beqObj a b
  | _, _ => false

def JVal.beqList : List JVal → List JVal → Bool
  | [], [] => true
  | a :: as, b :: bs => JVal.beq a b && JVal.beqList as bs
  | _, _ => false

def JVal.beqObj : List (String × JVal) → List (String × JVal) → Bool
  | [], [] => true
  | (ka, va) :: as, (kb, vb) :: bs => ka == kb && JVal.beq va vb && JVal.beqObj as bs
  | _, _ => false

end

instance : BEq JVal := ⟨JVal.beq⟩

mutual

theorem JVal.beq_iff : ∀ a b : JVal, JVal.beq a b = true ↔ a = b
  | .null, b => by cases b <;> simp [JVal.beq]
  | .bool a, b => by cases b <;> simp [JVal.beq]
  | .int a, b => by cases b <;> simp [JVal.beq]
  | .str a, b => by cases b <;> simp [JVal.beq]
  | .arr a, b => by
      cases b with
      | arr c => simpa [JVal.beq] using JVal.beqList_iff a c
      | _ => simp [JVal.beq]
  | .obj a, b => by
      cases b with
      | obj c => simpa [JVal.beq] using JVal.beqObj_iff a c
      | _ => simp [JVal.beq]

theorem JVal.beqList_iff : ∀ a b : List JVal, JVal.beqList a b = true ↔ a = b
  | [], b => by cases b <;> simp [JVal.beqList]
  | x :: xs, b => by
      cases b with
      | nil => simp [JVal.beqList]
      | cons y ys =>
          simp [JVal.beqList, Bool.and_eq_true, JVal.beq_iff x y,
            JVal.beqList_iff xs ys]

theorem JVal.beqObj_iff : ∀ a b : List (String × JVal), JVal.beqObj a b = true ↔ a = b
  | [], b => by cases b <;> simp [JVal.beqObj]
  | (k, v) :: xs, b => by
      cases b with
      | nil => simp [JVal.beqObj]
      | cons y ys =>
          obtain ⟨k2, v2⟩ := y
          simp [JVal.beqObj, Bool.and_eq_true, JVal.beq_iff v v2,
            JVal.beqObj_iff xs ys, and_assoc]

end

instance : DecidableEq JVal := fun a b =>
  decidable_of_iff (JVal.beq a b = true) (JVal.beq_iff a b)

/-- Python `d.get(k)` over an association list: the stored value, or the
default `d` when the key is absent. Keys are unique, as in a Python dict. -/
def dictGetD (kvs : List (String × JVal)) (k : String) (d : JVal) : JVal :=
  match kvs with
  | [] => d
  | (k2, v) :: rest => if k2 = k then v else dictGetD rest k d

/-- Python `d.get(k)` with no default: absent keys give `None` (`.null`),
exactly as a stored JSON `null` does. -/
def dictGet (kvs : List (String × JVal)) (k : String) : JVal :=
  dictGetD kvs k .null

/-- Key lookup that distinguishes an absent key (`none`) from any stored
value; used to state properties about the presence of fields. -/
def dictFind (kvs : List (String × JVal)) (k : String) : Option JVal :=
  match kvs with
  | [] => none
  | (k2, v) :: rest => if k2 = k then some v else dictFind rest k

/-- Field lookup on a `JVal`: `none` when the value is not an object or
lacks the field. -/
def jLookup (v : JVal) (k : String) : Option JVal :=
  match v with
  | .obj kvs => dictFind kvs k
  | _ => none

/-- `type(v).__name__` in Python, for `AttributeError` messages. -/
def pyTypeName : JVal → String
  | .null => "NoneType"
  | .bool _ => "bool"
  | .int _ => "int"
  | .str _ => "str"
  | .arr _ => "list"
  | .obj _ => "dict"

/-- Python truthiness of a value. -/
def pyTruthy : JVal → Bool
  | .null => false
  | .bool b => b
  | .int n => n ≠ 0
  | .str s => s ≠ ""
  | .arr xs => ¬ xs.isEmpty
  | .obj kvs => ¬ kvs.isEmpty

/-- Python `isinstance(v, int)`: true for ints and for bools (a subclass
of `int` in Python). -/
def pyIsInt : JVal → Bool
  | .int _ => true
  | .bool _ => true
  | _ => false

/-- The numeric value Python uses when comparing such a value with ints
(`True` is 1, `False` is 0). Only meaningful when `pyIsInt` holds. -/
def pyToInt : JVal → Int
  | .int n => n
  | .bool b => if b then 1 else 0
  | _ => 0

/-- The message of Python `AttributeError` raised by `v.get(...)` on a
non-dict value. -/
def noAttrGet (v : JVal) : String :=
  "\x27" ++ pyTypeName v ++ "\x27 object has no attribute \x27get\x27"

/-- Escapes for one character inside a Python `repr` of a string, given
the chosen quote character. -/
def pyReprChar (q : Char) (c : Char) : String :=
  if c = '\\' then "\\\\"
  else if c = q then "\\" ++ String.singleton q
  else if c = '\n' then "\\n"
  else if c = '\r' then "\\r"
  else if c = '\t' then "\\t"
  else if c.toNat < 0x20 ∨ c.toNat = 0x7f then
    "\\x" ++ (if c.toNat < 16 then "0" else "") ++ String.mk (Nat.toDigits 16 c.toNat)
  else String.singleton c

/-- Python `repr` of a string: single-quoted, unless the string holds a
single quote and no double quote. -/
def pyReprStr (s : String) : String :=
  let q : Char := if s.contains '\x27' ∧ ¬ s.contains '"' then '"' else '\x27'
  String.singleton q ++ String.join (s.toList.map (pyReprChar q)) ++ String.singleton q

mutual

/-- Python `str(v)`, as used by f-strings in the server's messages. -/
def pyStr : JVal → String
  | .null => "None"
  | .bool true => "True"
  | .bool false => "False"
  | .int n => toString n
  | .str s => s
  | .arr xs => "[" ++ String.intercalate ", " (JVal.reprList xs) ++ "]"
  | .obj kvs => "\x7b" ++ String.intercalate ", " (JVal.reprObj kvs) ++ "\x7d"

/-- Python `repr(v)`, used for elements nested inside containers. -/
def pyRepr : JVal → String
  | .null => "None"
  | .bool true => "True"
  | .bool false => "False"
  | .int n => toString n
  | .str s => pyReprStr s
  | .arr xs => "[" ++ String.intercalate ", " (JVal.reprList xs) ++ "]"
  | .obj kvs => "\x7b" ++ String.intercalate ", " (JVal.reprObj kvs) ++ "\x7d"

def JVal.reprList : List JVal → List String
  | [] => []
  | x :: xs => pyRepr x :: JVal.reprList xs

def JVal.reprObj : List (String × JVal) → List String
  | [] => []
  | (k, v) :: xs => (pyReprStr k ++ ": " ++ pyRepr v) :: JVal.reprObj xs

end

/-- Four lowercase hex digits, zero-padded, for `\uXXXX` escapes. -/
def hex4 (n : Nat) : String :=
  let ds := Nat.toDigits 16 n
  String.mk (List.replicate (4 - ds.length) '0') ++ String.mk ds

/-- One character of a JSON string under Python `json.dumps` defaults
(`ensure_ascii=True`): escape quote, backslash, the short control
escapes, other control characters and every non-ASCII character. -/
def jsonEscapeChar (c : Char) : String :=
  if c = '"' then "\\\""
  else if c = '\\' then "\\\\"
  else if c = '\n' then "\\n"
  else if c = '\t' then "\\t"
  else if c = '\r' then "\\r"
  else if c = '\x08' then "\\b"
  else if c = '\x0c' then "\\f"
  else if c.toNat < 0x20 ∨ c.toNat > 0x7e then
    if c.toNat ≤ 0xffff then "\\u" ++ hex4 c.toNat
    else
      "\\u" ++ hex4 (0xd800 + (c.toNat - 0x10000) / 0x400) ++
      "\\u" ++ hex4 (0xdc00 + (c.toNat - 0x10000) % 0x400)
  else String.singleton c

/-- A JSON string literal as Python `json.dumps` writes it. -/
def jsonQuote (s : String) : String :=
  "\"" ++ String.join (s.toList.map jsonEscapeChar) ++ "\""

mutual

/-- Python `json.dumps(v)` with default separators `", "` and `": "`. -/
def dumpsC : JVal → String
  | .null => "null"
  | .bool true => "true"
  | .bool false => "false"
  | .int n => toString n
  | .str s => jsonQuote s
  | .arr xs => "[" ++ String.intercalate ", " (dumpsCList xs) ++ "]"
  | .obj kvs => "\x7b" ++ String.intercalate ", " (dumpsCObj kvs) ++ "\x7d"

def dumpsCList : List JVal → List String
  | [] => []
  | x :: xs => dumpsC x :: dumpsCList xs

def dumpsCObj : List (String × JVal) → List String
  | [] => []
  | (k, v) :: xs => (jsonQuote k ++ ": " ++ dumpsC v) :: dumpsCObj xs

end

mutual

/-- Python `json.dumps(v, indent=2)`, with item separator `","`, key
separator `": "`, each element on its own line at the given indent. -/
def dumpsI (ind : Nat) : JVal → String
  | .arr [] => "[]"
  | .arr xs =>
      "[\n" ++ String.intercalate ",\n" (dumpsIList (ind + 2) xs) ++
      "\n" ++ String.mk (List.replicate ind ' ') ++ "]"
  | .obj [] => "\x7b\x7d"
  | .obj kvs =>
      "\x7b\n" ++ String.intercalate ",\n" (dumpsIObj (ind + 2) kvs) ++
      "\n" ++ String.mk (List.replicate ind ' ') ++ "\x7d"
  | .null => "null"
  | .bool true => "true"
  | .bool false => "false"
  | .int n => toString n
  | .str s => jsonQuote s

def dumpsIList (ind : Nat) : List JVal → List String
  | [] => []
  | x :: xs => (String.mk (List.replicate ind ' ') ++ dumpsI ind x) :: dumpsIList ind xs

def dumpsIObj (ind : Nat) : List (String × JVal) → List String
  | [] => []
  | (k, v) :: xs =>
      (String.mk (List.replicate ind ' ') ++ jsonQuote k ++ ": " ++ dumpsI ind v) ::
      dumpsIObj ind xs

end

/-- The one outbound HTTP request `get_demographics` can issue: URL,
query parameters as passed to `requests.get` (a `none` value is dropped
from the query string by `requests`), headers and timeout in seconds. -/
structure HttpRequest where
  url : String
  qparams : List (String × Option JVal)
  headers : List (String × String)
  timeout : Nat
deriving Repr, DecidableEq

/-- Outcome of the HTTP exchange, seen from the code after
`raise_for_status()` and `response.json()`: either a parsed JSON payload
from a 2xx response, or a `requests.RequestException` (non-2xx status,
connection error, timeout) carrying its `str(e)` text. -/
inductive HttpOutcome : Type where
  | success : JVal → HttpOutcome
  | reqError : String → HttpOutcome

/-- How a call into server code finishes: a normal return value, a raised
`McpError(code, message)`, or another exception escaping (its message). -/
inductive PyResult : Type where
  | ok : JVal → PyResult
  | mcpError : String → String → PyResult
  | pyError : String → PyResult
deriving Repr, DecidableEq

/-- `UnhcrDemographicsServer.list_tools`: the static tool descriptor. -/
def list_tools : JVal :=
  .obj [("tools", .arr [
    .obj [
      ("name", .str "get_demographics"),
      ("description", .str "Fetch refugee demographic statistics from UNHCR API"),
      ("inputSchema", .obj [
        ("type", .str "object"),
        ("properties", .obj [
          ("year", .obj [("type", .str "integer"),
                         ("description", .str "Year of data to fetch")]),
          ("coo", .obj [("type", .str "string"),
                        ("description", .str "Country of Origin ISO3 code")]),
          ("coa", .obj [("type", .str "string"),
                        ("description", .str "Country of Asylum ISO3 code")]),
          ("limit", .obj [("type", .str "integer"),
                          ("description", .str "Max results"),
                          ("default", .int 100)])]),
        ("required", .arr [.str "year"]),
        ("additionalProperties", .bool false)])]])]

/-- Uppercasing of one character, as Python `str.upper` acts on ASCII. -/
def pyUpperChar (c : Char) : Char :=
  if 'a' ≤ c ∧ c ≤ 'z' then Char.ofNat (c.toNat - 32) else c

/-- Python `s.upper()` (ASCII range). -/
def pyUpper (s : String) : String :=
  String.mk (s.toList.map pyUpperChar)

/-- The characters Python `str.strip()` removes. -/
def isPyWs (c : Char) : Bool :=
  c = ' ' ∨ c = '\t' ∨ c = '\n' ∨ c = '\r' ∨ c = '\x0b' ∨ c = '\x0c'

/-- Drop leading whitespace from a character list. -/
def dropWsHead : List Char → List Char
  | [] => []
  | c :: cs => if isPyWs c then dropWsHead cs else c :: cs

/-- Python `s.strip()`: whitespace removed from both ends. -/
def pyStrip (s : String) : String :=
  String.mk ((dropWsHead (dropWsHead s.toList).reverse).reverse)

/-- The year check of `get_demographics` (line 57):
`not isinstance(year, int) or year < 1950 or year > 2025`. -/
def yearInvalid (year : JVal) : Bool :=
  ¬ pyIsInt year ∨ pyToInt year < 1950 ∨ pyToInt year > 2025

/-- `coo.upper() if coo else None` (and likewise for `coa`): `none` when
the value is falsy (absent, `None`, `""`, `0`, `False`, empty
containers); the uppercased string when a truthy string; an
`AttributeError` (its message) when truthy but not a string. -/
def upperIfTruthy (v : JVal) : Except String (Option JVal) :=
  if pyTruthy v then
    match v with
    | .str s => .ok (some (.str (pyUpper s)))
    | _ => .error ("\x27" ++ pyTypeName v ++ "\x27 object has no attribute \x27upper\x27")
  else .ok none

/-- The content envelope built on the success path (lines 86-91): the
list serialized with `json.dumps(data, indent=2)` when non-empty, the
literal `"No data available"` when empty. -/
def contentEnvelope (xs : List JVal) : JVal :=
  .obj [("content", .arr [
    .obj [("type", .str "text"),
          ("text", .str (if xs.isEmpty then "No data available"
                         else dumpsI 0 (.arr xs)))]])]

/-- Reshaping of the parsed 2xx payload (lines 75-91):
`data = raw_data.get("data", raw_data)`, wrap a single dict in a list,
reject anything that is not a list; a non-dict payload raises
`AttributeError` at `raw_data.get`, caught by `except Exception` and
re-raised as `McpError(INTERNAL_ERROR, ...)`, like the `ValueError`. -/
def reshape (payload : JVal) : PyResult :=
  match payload with
  | .obj pkvs =>
    match dictGetD pkvs "data" payload with
    | .arr xs => .ok (contentEnvelope xs)
    | .obj okvs => .ok (contentEnvelope [.obj okvs])
    | _ => .mcpError "InternalError"
        "Failed to fetch demographics: Unexpected API response format"
  | _ => .mcpError "InternalError"
      ("Failed to fetch demographics: " ++ noAttrGet payload)

/-- The soft-failure envelope of the `except requests.RequestException`
branch (lines 92-96). -/
def softErrEnvelope (msg : String) : JVal :=
  .obj [("content", .arr [
    .obj [("type", .str "text"), ("text", .str ("UNHCR API error: " ++ msg))]]),
    ("isError", .bool true)]

/-- The request `get_demographics` hands to `requests.get`
(lines 61-71): the endpoint URL, the four query parameters in order, the
`Accept` header and the 10-second timeout. -/
def mkReq (year : JVal) (coo2 coa2 : Option JVal) (limit : JVal) : HttpRequest :=
  { url := "https://api.unhcr.org/population/v1/demographics/",
    qparams := [("year", some year), ("coo", coo2), ("coa", coa2),
                ("limit", some limit)],
    headers := [("Accept", "application/json")],
    timeout := 10 }

/-- `UnhcrDemographicsServer.get_demographics` (lines 51-98), with the
HTTP exchange abstracted as `http`. Returns the request issued (if any)
and the call's outcome. The four `args.get` calls precede the `try`
block, so a non-dict `args` raises an `AttributeError` that escapes the
function (`.pyError`); inside the `try`, an `AttributeError` from
`coo.upper()`/`coa.upper()` (evaluated left to right, before
`requests.get` runs) and any fault after the HTTP call are re-raised as
`McpError(INTERNAL_ERROR, "Failed to fetch demographics: " + str(e))`,
while a `requests.RequestException` yields the soft-failure envelope. -/
def get_demographics (http : HttpRequest → HttpOutcome) (args : JVal) :
    Option HttpRequest × PyResult :=
  match args with
  | .obj kvs =>
    let year := dictGet kvs "year"
    let limit := dictGetD kvs "limit" (.int 100)
    if yearInvalid year then
      (none, .mcpError "InvalidArguments" ("Invalid year: " ++ pyStr year))
    else
      match upperIfTruthy (dictGet kvs "coo") with
      | .error e => (none, .mcpError "InternalError" ("Failed to fetch demographics: " ++ e))
      | .ok coo2 =>
        match upperIfTruthy (dictGet kvs "coa") with
        | .error e => (none, .mcpError "InternalError" ("Failed to fetch demographics: " ++ e))
        | .ok coa2 =>
          let req := mkReq year coo2 coa2 limit
          (some req,
            match http req with
            | .reqError msg => .ok (softErrEnvelope msg)
            | .success payload => reshape payload)
  | _ => (none, .pyError (noAttrGet args))

/-- The body of a response: Python builds either
`{"id": ..., "result": ...}` or `{"id": ..., "error": {...}}`. -/
inductive RespBody : Type where
  | result : JVal → RespBody
  | error : String → String → RespBody
deriving Repr, DecidableEq

/-- Assembling the response dict of `handle_request` (lines 115-119). -/
def assemble (rid : JVal) : RespBody → JVal
  | .result v => .obj [("id", rid), ("result", v)]
  | .error c m => .obj [("id", rid),
      ("error", .obj [("code", .str c), ("message", .str m)])]

/-- The `try`/`except` dispatch of `handle_request` (lines 105-119),
routing on `method`. For `"callTool"`, a non-dict `params` raises
`AttributeError` at `params.get("name")`, caught by `except Exception`
and turned into an `InternalError` body; a `McpError` raised anywhere
below (including inside `get_demographics`) is caught by the first
`except`; any other exception escaping `get_demographics` is caught by
`except Exception`. -/
def dispatch (http : HttpRequest → HttpOutcome) (method params : JVal) :
    Option HttpRequest × RespBody :=
  if method = .str "listTools" then (none, .result list_tools)
  else if method = .str "callTool" then
    match params with
    | .obj pkvs =>
      let tool_name := dictGet pkvs "name"
      if tool_name = .str "get_demographics" then
        match get_demographics http (dictGetD pkvs "arguments" (.obj [])) with
        | (r, .ok v) => (r, .result v)
        | (r, .mcpError c m) => (r, .error c m)
        | (r, .pyError m) => (r, .error "InternalError" m)
      else (none, .error "MethodNotFound" ("Unknown tool: " ++ pyStr tool_name))
    | _ => (none, .error "InternalError" (noAttrGet params))
  else (none, .error "MethodNotFound" ("Unknown method: " ++ pyStr method))

/-- `UnhcrDemographicsServer.handle_request` (lines 100-119). The three
`request.get` calls on lines 101-103 precede the `try` block, so a
non-dict `request` raises an `AttributeError` that escapes the method
(`.error`); for a dict request the result is always a response dict. -/
def handle_request (http : HttpRequest → HttpOutcome) (request : JVal) :
    Option HttpRequest × Except String JVal :=
  match request with
  | .obj kvs =>
    let rb := dispatch http (dictGet kvs "method") (dictGetD kvs "params" (.obj []))
    (rb.1, .ok (assemble (dictGetD kvs "id" (.int 0)) rb.2))
  | _ => (none, .error (noAttrGet request))

/-- The error line printed by the `except json.JSONDecodeError` branch of
`run` (line 135). -/
def invalidJsonResp : JVal :=
  .obj [("id", .int 0),
        ("error", .obj [("code", .str "InvalidArguments"),
                        ("message", .str "Invalid JSON")])]

/-- One iteration of `UnhcrDemographicsServer.run` (lines 123-141) on one
input line: the list of JSON lines written to stdout (each flushed).
`parse` stands for `json.loads` (`none` = `json.JSONDecodeError`). An
empty line after `strip()` is skipped; a `json.JSONDecodeError` emits the
`InvalidArguments`/id `0` line; an exception escaping `handle_request`
is caught by `except Exception` and emits an `InternalError`/id `0`
line; otherwise the response itself is emitted. -/
def runStep (parse : String → Option JVal) (http : HttpRequest → HttpOutcome)
    (line : String) : List String :=
  let l := pyStrip line
  if l = "" then []
  else
    match parse l with
    | none => [dumpsC invalidJsonResp]
    | some request =>
      match (handle_request http request).2 with
      | .ok resp => [dumpsC resp]
      | .error msg => [dumpsC (.obj [("id", .int 0),
          ("error", .obj [("code", .str "InternalError"), ("message", .str msg)])])]

/-- The serving loop of `run` over a stream of input lines: the loop
never terminates on its own (only `SIGINT` flips `self.running`), and
every exception inside an iteration is caught, so each line is processed
in order and the outputs concatenate. -/
def runLines (parse : String → Option JVal) (http : HttpRequest → HttpOutcome) :
    List String → List String
  | [] => []
  | l :: rest => runStep parse http l ++ runLines parse http rest

/-! ## Helper lemmas -/

theorem handle_request_obj (http : HttpRequest → HttpOutcome)
    (kvs : List (String × JVal)) :
    handle_request http (.obj kvs) =
      ((dispatch http (dictGet kvs "method") (dictGetD kvs "params" (.obj []))).1,
       .ok (assemble (dictGetD kvs "id" (.int 0))
         (dispatch http (dictGet kvs "method") (dictGetD kvs "params" (.obj []))).2)) :=
  rfl

theorem jLookup_assemble_id (rid : JVal) (b : RespBody) :
    jLookup (assemble rid b) "id" = some rid := by
  cases b <;> simp [assemble, jLookup, dictFind]

theorem jLookup_assemble_result (rid v : JVal) :
    jLookup (assemble rid (.result v)) "result" = some v ∧
    jLookup (assemble rid (.result v)) "error" = none := by
  simp [assemble, jLookup, dictFind]

theorem jLookup_assemble_error (rid : JVal) (c m : String) :
    jLookup (assemble rid (.error c m)) "result" = none ∧
    jLookup (assemble rid (.error c m)) "error" =
      some (.obj [("code", .str c), ("message", .str m)]) := by
  simp [assemble, jLookup, dictFind]

theorem yearInvalid_iff (y : JVal) :
    yearInvalid y = true ↔ ¬ ∃ n : Int, y = .int n ∧ 1950 ≤ n ∧ n ≤ 2025 := by
  cases y <;> simp [yearInvalid, pyIsInt, pyToInt] <;> omega

/-! ## Claim theorems -/

/-- C1: for every request object, `handle_request` returns exactly one
response (the function's single return value), and its `id` field equals
the request's `id` field — `dictGetD kvs "id" (.int 0)` is the request's
stored `id`, or `0` when the request has no `id` field — on the success
path, every error path and the soft-failure path alike (`http` and the
request's contents are arbitrary). -/
theorem C1_response_id (http : HttpRequest → HttpOutcome)
    (kvs : List (String × JVal)) :
    ∃ resp : JVal, (handle_request http (.obj kvs)).2 = .ok resp ∧
      jLookup resp "id" = some (dictGetD kvs "id" (.int 0)) :=
  ⟨assemble (dictGetD kvs "id" (.int 0))
     (dispatch http (dictGet kvs "method") (dictGetD kvs "params" (.obj []))).2,
   rfl, jLookup_assemble_id _ _⟩

/-- C9: `handle_request` is total over request dictionaries: no exception
escapes (`Except.ok`), and the response always carries an `id` field and
exactly one of a `result` field or an `error` field. -/
theorem C9_handle_request_total (http : HttpRequest → HttpOutcome)
    (kvs : List (String × JVal)) :
    ∃ resp : JVal, (handle_request http (.obj kvs)).2 = .ok resp ∧
      (jLookup resp "id").isSome = true ∧
      (jLookup resp "result").isSome = !(jLookup resp "error").isSome := by
  refine ⟨assemble (dictGetD kvs "id" (.int 0))
    (dispatch http (dictGet kvs "method") (dictGetD kvs "params" (.obj []))).2,
    rfl, ?_, ?_⟩
  · rw [jLookup_assemble_id]; rfl
  · cases h : (dispatch http (dictGet kvs "method") (dictGetD kvs "params" (.obj []))).2 with
    | result v =>
        rw [(jLookup_assemble_result _ v).1, (jLookup_assemble_result _ v).2]; rfl
    | error c m =>
        rw [(jLookup_assemble_error _ c m).1, (jLookup_assemble_error _ c m).2]; rfl

/-- C5: a request dictionary whose `method` is neither `"listTools"` nor
`"callTool"` gets a `MethodNotFound` error response; a `"callTool"`
request whose `params.name` differs from `"get_demographics"` gets a
`MethodNotFound` error response; in both cases no HTTP request is issued
(the dispatch returns before the tool is called). -/
theorem C5_method_not_found :
    (∀ (http : HttpRequest → HttpOutcome) (kvs : List (String × JVal)),
       dictGet kvs "method" ≠ .str "listTools" →
       dictGet kvs "method" ≠ .str "callTool" →
       handle_request http (.obj kvs) =
         (none, .ok (assemble (dictGetD kvs "id" (.int 0))
           (.error "MethodNotFound"
             ("Unknown method: " ++ pyStr (dictGet kvs "method")))))) ∧
    (∀ (http : HttpRequest → HttpOutcome) (kvs pkvs : List (String × JVal)),
       dictGet kvs "method" = .str "callTool" →
       dictGetD kvs "params" (.obj []) = .obj pkvs →
       dictGet pkvs "name" ≠ .str "get_demographics" →
       handle_request http (.obj kvs) =
         (none, .ok (assemble (dictGetD kvs "id" (.int 0))
           (.error "MethodNotFound"
             ("Unknown tool: " ++ pyStr (dictGet pkvs "name")))))) := by
  constructor
  · intro http kvs h1 h2
    rw [handle_request_obj]
    simp [dispatch, h1, h2]
  · intro http kvs pkvs h1 h2 h3
    rw [handle_request_obj]
    simp [dispatch, h1, h2, h3]

/-- C5 witness: an unknown method `"ping"` and an unknown tool `"bogus"`
both produce `MethodNotFound` error responses and no HTTP request. -/
theorem C5_witness :
    handle_request (fun _ => .reqError "x") (.obj [("method", .str "ping")]) =
      (none, .ok (.obj [("id", .int 0),
        ("error", .obj [("code", .str "MethodNotFound"),
                        ("message", .str "Unknown method: ping")])])) ∧
    handle_request (fun _ => .reqError "x")
        (.obj [("id", .int 7), ("method", .str "callTool"),
               ("params", .obj [("name", .str "bogus")])]) =
      (none, .ok (.obj [("id", .int 7),
        ("error", .obj [("code", .str "MethodNotFound"),
                        ("message", .str "Unknown tool: bogus")])])) := by
  constructor
  · have h := C5_method_not_found.1 (fun _ => .reqError "x")
      [("method", .str "ping")] (by decide) (by decide)
    exact h.trans (by rfl)
  · have h := C5_method_not_found.2 (fun _ => .reqError "x")
      [("id", .int 7), ("method", .str "callTool"),
       ("params", .obj [("name", .str "bogus")])]
      [("name", .str "bogus")] (by decide) (by decide) (by decide)
    exact h.trans (by rfl)

/-- C6: `list_tools` is a constant of the embedding (no input, no state,
no failure); it holds exactly one tool, named `"get_demographics"`, whose
input schema requires exactly `"year"`; and dispatching `"listTools"`
returns it as the result with no HTTP request, whatever `params` holds. -/
theorem C6_list_tools_static :
    (∃ tool : JVal, jLookup list_tools "tools" = some (.arr [tool]) ∧
       jLookup tool "name" = some (.str "get_demographics") ∧
       Option.bind (jLookup tool "inputSchema") (fun s => jLookup s "required") =
         some (.arr [.str "year"])) ∧
    (∀ (http : HttpRequest → HttpOutcome) (params : JVal),
       dispatch http (.str "listTools") params = (none, .result list_tools)) := by
  constructor
  · exact ⟨_, rfl, by decide, by decide⟩
  · intro http params
    simp [dispatch]

/-- C2: when the `year` argument is not an integer in [1950, 2025]
(absent, non-integer, below 1950 or above 2025), `get_demographics`
raises `InvalidArguments` with a message naming the invalid value and
issues no HTTP request (first component `none`); and every integer year
in [1950, 2025] passes the validation. -/
theorem C2_year_validation :
    (∀ (http : HttpRequest → HttpOutcome) (kvs : List (String × JVal)),
       (¬ ∃ n : Int, dictGet kvs "year" = .int n ∧ 1950 ≤ n ∧ n ≤ 2025) →
       get_demographics http (.obj kvs) =
         (none, .mcpError "InvalidArguments"
           ("Invalid year: " ++ pyStr (dictGet kvs "year")))) ∧
    (∀ n : Int, 1950 ≤ n → n ≤ 2025 → yearInvalid (.int n) = false) := by
  constructor
  · intro http kvs h
    have hy : yearInvalid (dictGet kvs "year") = true := (yearInvalid_iff _).mpr h
    simp [get_demographics, hy]
  · intro n h1 h2
    simp [yearInvalid, pyIsInt, pyToInt]
    omega

/-- C2 witness: the non-integer year `"2020"` fails with
`InvalidArguments`, message naming the value, and no request is issued;
the integer 2020 passes the validation. -/
theorem C2_witness :
    get_demographics (fun _ => .reqError "x") (.obj [("year", .str "2020")]) =
      (none, .mcpError "InvalidArguments" "Invalid year: 2020") ∧
    yearInvalid (.int 2020) = false := by
  constructor
  · have h := C2_year_validation.1 (fun _ => .reqError "x") [("year", .str "2020")]
      (by rintro ⟨n, hn, -⟩; simp [dictGet, dictGetD] at hn)
    exact h.trans (by rfl)
  · exact C2_year_validation.2 2020 (by decide) (by decide)

/-- C3: whenever the HTTP exchange fails with a
`requests.RequestException` (non-2xx status, connection error, timeout —
all abstracted as `.reqError msg`), `get_demographics` returns normally
(`.ok`, not a raised `McpError`) with the soft-failure envelope: content
text `"UNHCR API error: " ++ msg`, `isError` set to `true`, and no
`error` field anywhere in the envelope. -/
theorem C3_soft_failure (msg : String) (kvs : List (String × JVal))
    (h1 : yearInvalid (dictGet kvs "year") = false)
    (h2 : ∃ u, upperIfTruthy (dictGet kvs "coo") = .ok u)
    (h3 : ∃ u, upperIfTruthy (dictGet kvs "coa") = .ok u) :
    (get_demographics (fun _ => .reqError msg) (.obj kvs)).2 =
      .ok (softErrEnvelope msg) ∧
    jLookup (softErrEnvelope msg) "isError" = some (.bool true) ∧
    jLookup (softErrEnvelope msg) "error" = none ∧
    jLookup (softErrEnvelope msg) "content" =
      some (.arr [.obj [("type", .str "text"),
                        ("text", .str ("UNHCR API error: " ++ msg))]]) := by
  obtain ⟨u2, hu2⟩ := h2
  obtain ⟨u3, hu3⟩ := h3
  refine ⟨?_, rfl, rfl, rfl⟩
  simp [get_demographics, h1, hu2, hu3]

/-- C3 witness: a simulated timeout on `{year: 2020}` yields the
soft-failure envelope with `isError: true` and no protocol-level error. -/
theorem C3_witness :
    (get_demographics (fun _ => .reqError "timeout") (.obj [("year", .int 2020)])).2 =
      .ok (.obj [("content", .arr [.obj [("type", .str "text"),
          ("text", .str "UNHCR API error: timeout")]]),
        ("isError", .bool true)]) ∧
    jLookup (softErrEnvelope "timeout") "isError" = some (.bool true) := by
  have h := C3_soft_failure "timeout" [("year", .int 2020)] (by decide)
    ⟨none, rfl⟩ ⟨none, rfl⟩
  exact ⟨h.1.trans (by rfl), h.2.1⟩

/-- C4 counterexample: on the upstream payload `[]` (a sequence at top
level) the claim demands the empty-sequence envelope
`"No data available"`, but `raw_data.get("data", raw_data)` raises
`AttributeError` on a list, so the code yields an `InternalError`
instead. -/
theorem C4_counterexample :
    (get_demographics (fun _ => .success (.arr []))
        (.obj [("year", .int 2020)])).2 =
      .mcpError "InternalError"
        "Failed to fetch demographics: \x27list\x27 object has no attribute \x27get\x27" ∧
    (get_demographics (fun _ => .success (.arr []))
        (.obj [("year", .int 2020)])).2 ≠ .ok (contentEnvelope []) := by
  exact ⟨rfl, by decide⟩

/-- C4 amended: for every upstream payload that is a JSON object, its
`data` field is used if present, else the whole object; an object value
is wrapped in a one-element sequence; a value that is neither object nor
sequence is an `InternalError`; a payload that is not itself an object
(sequence, string, number, boolean, null) is also an `InternalError`
(the `AttributeError` from `.get`); a non-empty sequence is serialized
as pretty-printed JSON (`json.dumps(..., indent=2)`) in the content
envelope; an empty sequence yields exactly `"No data available"`. -/
theorem C4_amended_reshaping (payload : JVal) (kvs : List (String × JVal))
    (h1 : yearInvalid (dictGet kvs "year") = false)
    (h2 : ∃ u, upperIfTruthy (dictGet kvs "coo") = .ok u)
    (h3 : ∃ u, upperIfTruthy (dictGet kvs "coa") = .ok u) :
    (∃ req, get_demographics (fun _ => .success payload) (.obj kvs) =
       (some req, reshape payload)) ∧
    (∀ pkvs, payload = .obj pkvs →
       (∀ xs, dictGetD pkvs "data" payload = .arr xs →
          reshape payload = .ok (contentEnvelope xs)) ∧
       (∀ okvs, dictGetD pkvs "data" payload = .obj okvs →
          reshape payload = .ok (contentEnvelope [.obj okvs])) ∧
       ((∀ xs, dictGetD pkvs "data" payload ≠ .arr xs) →
        (∀ okvs, dictGetD pkvs "data" payload ≠ .obj okvs) →
          reshape payload = .mcpError "InternalError"
            "Failed to fetch demographics: Unexpected API response format")) ∧
    ((∀ pkvs, payload ≠ .obj pkvs) →
       reshape payload = .mcpError "InternalError"
         ("Failed to fetch demographics: " ++ noAttrGet payload)) ∧
    (∀ xs : List JVal, xs ≠ [] → contentEnvelope xs =
       .obj [("content", .arr [.obj [("type", .str "text"),
         ("text", .str (dumpsI 0 (.arr xs)))]])]) ∧
    contentEnvelope [] =
      .obj [("content", .arr [.obj [("type", .str "text"),
        ("text", .str "No data available")]])] := by
  obtain ⟨u2, hu2⟩ := h2
  obtain ⟨u3, hu3⟩ := h3
  refine ⟨⟨{ url := "https://api.unhcr.org/population/v1/demographics/",
             qparams := [("year", some (dictGet kvs "year")), ("coo", u2), ("coa", u3),
                         ("limit", some (dictGetD kvs "limit" (.int 100)))],
             headers := [("Accept", "application/json")], timeout := 10 }, ?_⟩,
    ?_, ?_, ?_, rfl⟩
  · simp [get_demographics, mkReq, h1, hu2, hu3]
  · intro pkvs hp
    subst hp
    refine ⟨?_, ?_, ?_⟩
    · intro xs hxs; simp [reshape, hxs]
    · intro okvs ho; simp [reshape, ho]
    · intro hna hno
      rcases hd : dictGetD pkvs "data" (.obj pkvs) with _ | b | n | s | xs | okvs
      · simp [reshape, hd]
      · simp [reshape, hd]
      · simp [reshape, hd]
      · simp [reshape, hd]
      · exact absurd hd (hna xs)
      · exact absurd hd (hno okvs)
  · intro hno
    rcases payload with _ | b | n | s | xs | okvs
    · simp [reshape]
    · simp [reshape]
    · simp [reshape]
    · simp [reshape]
    · simp [reshape]
    · exact absurd rfl (hno okvs)
  · intro xs hxs
    cases xs with
    | nil => exact absurd rfl hxs
    | cons a as => simp [contentEnvelope]

/-- C4 witness: the spec's own example — upstream payload
`{"data": []}` — reaches the empty-sequence branch and the content text
is exactly `"No data available"`. -/
theorem C4_witness :
    (get_demographics (fun _ => .success (.obj [("data", .arr [])]))
        (.obj [("year", .int 2020)])).2 =
      .ok (.obj [("content", .arr [.obj [("type", .str "text"),
        ("text", .str "No data available")]])]) ∧
    reshape (.obj [("data", .arr [])]) = .ok (contentEnvelope []) := by
  have h := C4_amended_reshaping (.obj [("data", .arr [])]) [("year", .int 2020)]
    (by decide) ⟨none, rfl⟩ ⟨none, rfl⟩
  have hr := (h.2.1 [("data", .arr [])] rfl).1 [] (by decide)
  exact ⟨by rfl, hr⟩

/-- C7: on the line-oriented transport, a non-empty input line that
`json.loads` rejects (`parse` gives `none`) produces exactly one flushed
output line — the serialized `InvalidArguments` error response with id
`0` — and the loop goes on to process the remaining input unchanged. -/
theorem C7_invalid_json_line (parse : String → Option JVal)
    (http : HttpRequest → HttpOutcome) (line : String) (rest : List String)
    (h1 : pyStrip line ≠ "") (h2 : parse (pyStrip line) = none) :
    runLines parse http (line :: rest) =
      dumpsC invalidJsonResp :: runLines parse http rest ∧
    jLookup invalidJsonResp "id" = some (.int 0) ∧
    Option.bind (jLookup invalidJsonResp "error") (fun e => jLookup e "code") =
      some (.str "InvalidArguments") := by
  refine ⟨?_, rfl, rfl⟩
  simp [runLines, runStep, h1, h2]

/-- C7 witness: the malformed line `"not json"` followed by a well-formed
`listTools` request: the first line yields exactly the
`InvalidArguments`/id `0` JSON line and the second is still served. -/
theorem C7_witness :
    runLines (fun s => if s = "go" then some (.obj [("method", .str "listTools")]) else none)
        (fun _ => .reqError "x") ["not json", "go"] =
      ["\x7b\"id\": 0, \"error\": \x7b\"code\": \"InvalidArguments\", \"message\": \"Invalid JSON\"\x7d\x7d",
       dumpsC (assemble (.int 0) (.result list_tools))] := by
  have h := C7_invalid_json_line
    (fun s => if s = "go" then some (.obj [("method", .str "listTools")]) else none)
    (fun _ => .reqError "x") "not json" ["go"] (by decide) (by decide)
  exact h.1.trans (by rfl)

/-- C8 counterexample: with arguments `{year: 2020, coo: ""}` the `coo`
field is present, so the claim requires it uppercased (the query value
`""`); but `""` is falsy in Python, so the code passes `None` and
`requests` omits the parameter entirely. -/
theorem C8_counterexample :
    (get_demographics (fun _ => .reqError "boom")
        (.obj [("year", .int 2020), ("coo", .str "")])).1 =
      some { url := "https://api.unhcr.org/population/v1/demographics/",
             qparams := [("year", some (.int 2020)), ("coo", none),
                         ("coa", none), ("limit", some (.int 100))],
             headers := [("Accept", "application/json")], timeout := 10 } ∧
    dictFind [("year", .int 2020), ("coo", .str "")] "coo" = some (.str "") ∧
    List.lookup "coo"
        [("year", some (JVal.int 2020)), ("coo", (none : Option JVal)),
         ("coa", none), ("limit", some (.int 100))] ≠ some (some (.str "")) := by
  exact ⟨rfl, by decide, by decide⟩

/-- C8 amended: every call that passes the year validation and whose
`coo`/`coa` evaluate without fault issues exactly one GET request to the
demographics endpoint, with `year` unchanged, `coo`/`coa` uppercased
when truthy non-empty strings and omitted (`none`) when absent or falsy
— an empty string included — `limit` passed through unchanged with
default 100, a 10-second timeout and an `Accept: application/json`
header. -/
theorem C8_amended_request (http : HttpRequest → HttpOutcome)
    (kvs : List (String × JVal)) (cooU coaU : Option JVal)
    (h1 : yearInvalid (dictGet kvs "year") = false)
    (h2 : upperIfTruthy (dictGet kvs "coo") = .ok cooU)
    (h3 : upperIfTruthy (dictGet kvs "coa") = .ok coaU) :
    (get_demographics http (.obj kvs)).1 =
      some { url := "https://api.unhcr.org/population/v1/demographics/",
             qparams := [("year", some (dictGet kvs "year")), ("coo", cooU),
                         ("coa", coaU),
                         ("limit", some (dictGetD kvs "limit" (.int 100)))],
             headers := [("Accept", "application/json")], timeout := 10 } ∧
    (∀ s : String, s ≠ "" → upperIfTruthy (.str s) = .ok (some (.str (pyUpper s)))) ∧
    upperIfTruthy (.str "") = .ok none ∧
    upperIfTruthy .null = .ok none := by
  refine ⟨?_, ?_, rfl, rfl⟩
  · simp [get_demographics, mkReq, h1, h2, h3]
  · intro s hs
    simp [upperIfTruthy, pyTruthy, hs]

/-- C8 witness: `{year: 2021, coo: "afg", limit: 5}` issues one request
with `coo` uppercased to `"AFG"`, `coa` omitted, `limit` 5, timeout 10,
`Accept: application/json`. -/
theorem C8_witness :
    (get_demographics (fun _ => .reqError "x")
        (.obj [("year", .int 2021), ("coo", .str "afg"), ("limit", .int 5)])).1 =
      some { url := "https://api.unhcr.org/population/v1/demographics/",
             qparams := [("year", some (.int 2021)), ("coo", some (.str "AFG")),
                         ("coa", none), ("limit", some (.int 5))],
             headers := [("Accept", "application/json")], timeout := 10 } := by
  have h := C8_amended_request (fun _ => .reqError "x")
    [("year", .int 2021), ("coo", .str "afg"), ("limit", .int 5)]
    (some (.str "AFG")) none (by decide) (by rfl) (by rfl)
  exact h.1.trans (by rfl)


theorem upperIfTruthy_nonstr (v : JVal) (h1 : pyTruthy v = true)
    (h2 : ∀ s, v ≠ .str s) :
    upperIfTruthy v =
      .error ("\x27" ++ pyTypeName v ++ "\x27 object has no attribute \x27upper\x27") := by
  rcases v with _ | b | n | s | xs | okvs
  · simp [pyTruthy] at h1
  · simp [upperIfTruthy, h1]
  · simp [upperIfTruthy, h1]
  · exact absurd rfl (h2 s)
  · simp [upperIfTruthy, h1]
  · simp [upperIfTruthy, h1]

/-- C10 counterexample: `coo = 0` is a non-string, so the claim requires
`InternalError`; but `0` is falsy in Python, `coo.upper() if coo else
None` takes the `else` branch, the request is issued with `coo` omitted
and the call succeeds. -/
theorem C10_counterexample :
    (get_demographics (fun _ => .success (.obj [("data", .arr [])]))
        (.obj [("year", .int 2020), ("coo", .int 0)])).2 =
      .ok (.obj [("content", .arr [.obj [("type", .str "text"),
        ("text", .str "No data available")]])]) ∧
    dictFind [("year", .int 2020), ("coo", .int 0)] "coo" = some (.int 0) ∧
    (get_demographics (fun _ => .success (.obj [("data", .arr [])]))
        (.obj [("year", .int 2020), ("coo", .int 0)])).1 =
      some { url := "https://api.unhcr.org/population/v1/demographics/",
             qparams := [("year", some (.int 2020)), ("coo", none),
                         ("coa", none), ("limit", some (.int 100))],
             headers := [("Accept", "application/json")], timeout := 10 } := by
  exact ⟨rfl, by decide, rfl⟩

/-- C10 amended: only `year` is ever validated — once the year check
passes, no value of `limit` can produce `InvalidArguments` (nothing
can), and whenever a request is issued `limit` is forwarded as-is
(default 100); a *truthy* non-string `coo`/`coa` yields `InternalError`
(the `AttributeError` from `.upper()`) with no request issued; a falsy
`coo`/`coa` — `""`, `0`, `False`, `None`, empty containers — is treated
as absent rather than uppercased. -/
theorem C10_only_year_validated :
    (∀ (http : HttpRequest → HttpOutcome) (kvs : List (String × JVal)) (m : String),
       yearInvalid (dictGet kvs "year") = false →
       (get_demographics http (.obj kvs)).2 ≠ .mcpError "InvalidArguments" m) ∧
    (∀ (http : HttpRequest → HttpOutcome) (kvs : List (String × JVal))
       (req : HttpRequest),
       (get_demographics http (.obj kvs)).1 = some req →
       List.lookup "limit" req.qparams =
         some (some (dictGetD kvs "limit" (.int 100)))) ∧
    (∀ (http : HttpRequest → HttpOutcome) (kvs : List (String × JVal)),
       yearInvalid (dictGet kvs "year") = false →
       pyTruthy (dictGet kvs "coo") = true →
       (∀ s, dictGet kvs "coo" ≠ .str s) →
       get_demographics http (.obj kvs) =
         (none, .mcpError "InternalError"
           ("Failed to fetch demographics: " ++
            ("\x27" ++ pyTypeName (dictGet kvs "coo") ++
             "\x27 object has no attribute \x27upper\x27")))) ∧
    (∀ (http : HttpRequest → HttpOutcome) (kvs : List (String × JVal)),
       yearInvalid (dictGet kvs "year") = false →
       (∃ u, upperIfTruthy (dictGet kvs "coo") = .ok u) →
       pyTruthy (dictGet kvs "coa") = true →
       (∀ s, dictGet kvs "coa" ≠ .str s) →
       get_demographics http (.obj kvs) =
         (none, .mcpError "InternalError"
           ("Failed to fetch demographics: " ++
            ("\x27" ++ pyTypeName (dictGet kvs "coa") ++
             "\x27 object has no attribute \x27upper\x27")))) ∧
    (∀ v : JVal, pyTruthy v = false → upperIfTruthy v = .ok none) := by
  refine ⟨?_, ?_, ?_, ?_, ?_⟩
  · intro http kvs m h1
    rcases h2 : upperIfTruthy (dictGet kvs "coo") with e2 | u2
    · simp [get_demographics, h1, h2]
    · rcases h3 : upperIfTruthy (dictGet kvs "coa") with e3 | u3
      · simp [get_demographics, h1, h2, h3]
      · rcases h4 : http (mkReq (dictGet kvs "year") u2 u3
            (dictGetD kvs "limit" (.int 100))) with payload | msg
        · rcases payload with _ | b | n | s | xs | pkvs
          · simp [get_demographics, h1, h2, h3, h4, reshape]
          · simp [get_demographics, h1, h2, h3, h4, reshape]
          · simp [get_demographics, h1, h2, h3, h4, reshape]
          · simp [get_demographics, h1, h2, h3, h4, reshape]
          · simp [get_demographics, h1, h2, h3, h4, reshape]
          · rcases hd : dictGetD pkvs "data" (.obj pkvs) with _ | b | n | s | xs | okvs <;>
              simp [get_demographics, h1, h2, h3, h4, reshape, hd]
        · simp [get_demographics, h1, h2, h3, h4]
  · intro http kvs req h
    cases h1 : yearInvalid (dictGet kvs "year") with
    | true => simp [get_demographics, h1] at h
    | false =>
      rcases h2 : upperIfTruthy (dictGet kvs "coo") with e2 | u2
      · simp [get_demographics, h1, h2] at h
      · rcases h3 : upperIfTruthy (dictGet kvs "coa") with e3 | u3
        · simp [get_demographics, h1, h2, h3] at h
        · simp [get_demographics, h1, h2, h3] at h
          rw [← h]
          simp [List.lookup]
  · intro http kvs h1 h2 h3
    simp [get_demographics, h1, upperIfTruthy_nonstr (dictGet kvs "coo") h2 h3]
  · intro http kvs h1 h2 h3 h4
    obtain ⟨u, hu⟩ := h2
    simp [get_demographics, h1, hu, upperIfTruthy_nonstr (dictGet kvs "coa") h3 h4]
  · intro v h
    simp [upperIfTruthy, h]

/-- C10 witness: with a valid year, `limit: "abc"` (a non-integer) is
forwarded as-is with no `InvalidArguments`; `coo: True` and `coa: [1]`
(truthy non-strings) each yield `InternalError` with no request;
`coo: 0` (falsy) is treated as absent by `upperIfTruthy`. -/
theorem C10_witness :
    (get_demographics (fun _ => .reqError "x")
        (.obj [("year", .int 2020), ("limit", .str "abc")])).2 ≠
      .mcpError "InvalidArguments" "Invalid year: 2020" ∧
    List.lookup "limit"
      ({ url := "https://api.unhcr.org/population/v1/demographics/",
         qparams := [("year", some (JVal.int 2020)), ("coo", none), ("coa", none),
                     ("limit", some (.str "abc"))],
         headers := [("Accept", "application/json")],
         timeout := 10 } : HttpRequest).qparams = some (some (.str "abc")) ∧
    get_demographics (fun _ => .reqError "x")
        (.obj [("year", .int 2020), ("coo", .bool true)]) =
      (none, .mcpError "InternalError"
        "Failed to fetch demographics: \x27bool\x27 object has no attribute \x27upper\x27") ∧
    get_demographics (fun _ => .reqError "x")
        (.obj [("year", .int 2020), ("coa", .arr [.int 1])]) =
      (none, .mcpError "InternalError"
        "Failed to fetch demographics: \x27list\x27 object has no attribute \x27upper\x27") ∧
    upperIfTruthy (.int 0) = .ok none := by
  refine ⟨C10_only_year_validated.1 (fun _ => .reqError "x")
      [("year", .int 2020), ("limit", .str "abc")] "Invalid year: 2020" (by decide),
    C10_only_year_validated.2.1 (fun _ => .reqError "x")
      [("year", .int 2020), ("limit", .str "abc")] _ (by rfl),
    ?_, ?_, C10_only_year_validated.2.2.2.2 (.int 0) (by decide)⟩
  · have h := C10_only_year_validated.2.2.1 (fun _ => .reqError "x")
      [("year", .int 2020), ("coo", .bool true)] (by decide) (by decide)
      (by intro s hs; simp [dictGet, dictGetD] at hs)
    exact h.trans (by rfl)
  · have h := C10_only_year_validated.2.2.2.1 (fun _ => .reqError "x")
      [("year", .int 2020), ("coa", .arr [.int 1])] (by decide) ⟨none, by rfl⟩
      (by decide) (by intro s hs; simp [dictGet, dictGetD] at hs)
    exact h.trans (by rfl)

/-- C7 counterexample: a whitespace-only input line is not valid JSON
(`json.loads` would reject it), yet the loop skips it after `strip()`
and emits no response at all, not an `InvalidArguments` error line. -/
theorem C7_counterexample :
    runLines (fun _ => none) (fun _ => .reqError "x") ["   "] = [] ∧
    pyStrip "   " = "" ∧
    ([] : List String) ≠ [dumpsC invalidJsonResp] := by
  exact ⟨rfl, rfl, by decide⟩
